import Mathlib

/-!
Verification of the model code in `src/models/ae.py` and `src/models/__init__.py`
of the Compositional-Generalization repository.

Tensors are modelled as batches of flattened samples over the rationals,
together with an autograd `requiresGrad` flag (`Tensor.detach` clears it, and
elementwise torch loss reductions propagate it as torch does under grad mode).
Python dicts are modelled as ordered association lists, Python exceptions by
an `Except PyErr` result, and the side effects performed by the lifecycle
methods (`sample_images`, `log_dict`) by an explicit list of `Effect`s that
each method returns alongside its value.  The neural-network modules produced
by `build_architectures`, the torch elementwise binary-cross-entropy-with-logits
formula, and `init_optimizer` are external collaborators and are carried as
abstract function fields or parameters.
-/

namespace CompGen

/-- A torch tensor: a batch of flattened samples with rational entries, plus
the autograd flag that `detach` clears. -/
structure Tensor where
  data : List (List ℚ)
  requiresGrad : Bool
deriving DecidableEq, Repr

/-- Models `torch.Tensor.detach`: same values, no gradient tracking. -/
def Tensor.detach (t : Tensor) : Tensor :=
  { t with requiresGrad := false }

/-- Models `t.size(0)`: the batch dimension. -/
def Tensor.size0 (t : Tensor) : Nat :=
  t.data.length

/-- Models dividing a tensor by a scalar (the Python `tensor / n`); keeps the
gradient flag of the operand. -/
def Tensor.div (t : Tensor) (c : ℚ) : Tensor :=
  ⟨t.data.map (fun row => row.map (fun q => q / c)), t.requiresGrad⟩

/-- Sum of `f a b` over the elementwise zip of two equally shaped batches. -/
def batchSum (f : ℚ → ℚ → ℚ) (a b : List (List ℚ)) : ℚ :=
  (List.zipWith (fun ra rb => (List.zipWith f ra rb).sum) a b).sum

namespace F

/-- Models `torch.nn.functional.mse_loss(input, target, reduction='sum')`:
the summed elementwise squared error, as a scalar tensor that requires grad
whenever either operand does. -/
def mse_loss (input target : Tensor) : Tensor :=
  ⟨[[batchSum (fun x y => (x - y) ^ 2) input.data target.data]],
   input.requiresGrad || target.requiresGrad⟩

/-- Models `torch.nn.functional.binary_cross_entropy_with_logits(input, target,
reduction='sum')`.  The elementwise formula lives inside torch (an external
collaborator), so it is taken as the parameter `bceElem`; the reduction
structure (elementwise, then summed) is modelled here. -/
def binary_cross_entropy_with_logits (bceElem : ℚ → ℚ → ℚ)
    (input target : Tensor) : Tensor :=
  ⟨[[batchSum bceElem input.data target.data]],
   input.requiresGrad || target.requiresGrad⟩

end F

/-- The Python exceptions the modelled code can raise. -/
inductive PyErr where
  | keyError (key : String)
  | unboundLocalError (name : String)
  | valueError
deriving DecidableEq, Repr

/-- Lookup in a Python dict modelled as an ordered association list. -/
def dictGet {α : Type} (d : List (String × α)) (k : String) : Option α :=
  (d.find? (fun kv => kv.1 == k)).map (fun kv => kv.2)

/-- Python `d[k]`: raises `KeyError` when the key is absent. -/
def dictGetE {α : Type} (d : List (String × α)) (k : String) : Except PyErr α :=
  match dictGet d k with
  | some v => Except.ok v
  | none => Except.error (PyErr.keyError k)

/-- Side effects performed by the lifecycle methods. -/
inductive Effect where
  | sampleImages (batch : Tensor × Tensor) (stage : String)
  | logDict (logs : List (String × Tensor)) (prog_bar : Bool)
      (on_step : Option Bool) (on_epoch : Option Bool)
deriving DecidableEq, Repr

/-- The `AutoEncoder` Lightning module of `src/models/ae.py`.  The fields are
the attributes stored by `__init__` and `setup_models`; the four network
modules returned by the external `build_architectures` are abstract tensor
functions, and their `output_size` attributes are carried alongside.
`logger` records whether a logger is attached (the truthiness of
`self.logger`), and `bce_elem` stands for torch's external elementwise
binary-cross-entropy-with-logits formula used by the `bce` branch. -/
structure AutoEncoder where
  input_size : List Nat
  architecture : String
  latent_size : Nat
  recon_loss : String
  lr : ℚ
  optim : String
  weight_decay : ℚ
  encoder_conv : Tensor → Tensor
  decoder_conv : Tensor → Tensor
  encoder_latent : Tensor → Tensor
  decoder_latent : Tensor → Tensor
  encoder_conv_output_size : Nat
  decoder_latent_output_size : Nat
  logger : Bool
  bce_elem : ℚ → ℚ → ℚ

namespace AutoEncoder

/-- `encode_latent`: encode a backbone feature into latent variables. -/
def encode_latent (m : AutoEncoder) (feat : Tensor) : Tensor :=
  m.encoder_latent feat

/-- `decode_latent`: decode a latent variable into a feature. -/
def decode_latent (m : AutoEncoder) (z : Tensor) : Tensor :=
  m.decoder_latent z

/-- `encode`: backbone convolution followed by the latent encoder. -/
def encode (m : AutoEncoder) (input : Tensor) : Tensor :=
  let feat := m.encoder_conv input
  m.encode_latent feat

/-- `decode`: latent decoder followed by the deconvolutional decoder. -/
def decode (m : AutoEncoder) (z : Tensor) : Tensor :=
  m.decoder_conv (m.decode_latent z)

/-- `forward`: returns the results dict `{'recon': decode(encode(input))}`. -/
def forward (m : AutoEncoder) (input : Tensor) : List (String × Tensor) :=
  [("recon", m.decode (m.encode input))]

/-- `embed`: expose a representation for downstream tasks, selected by `mode`;
raises `ValueError` on an unrecognised mode. -/
def embed (m : AutoEncoder) (x : Tensor) (mode : String) : Except PyErr Tensor :=
  if mode = "pre" then
    Except.ok (m.encoder_conv x)
  else
    let z := m.encode x
    if mode = "latent" then Except.ok z
    else if mode = "post" then Except.ok (m.decoder_latent z)
    else Except.error PyErr.valueError

/-- `compute_recontruct_loss`: dispatch on the `recon_loss` hyperparameter to
a sum-reduced elementwise loss divided by the batch size.  When `recon_loss`
is neither `mse` nor `bce` the local variable is returned unassigned, which
raises `UnboundLocalError`; a missing `recon` key raises `KeyError`. -/
def compute_recontruct_loss (m : AutoEncoder) (inputs : Tensor)
    (results : List (String × Tensor)) : Except PyErr Tensor :=
  if m.recon_loss = "mse" then
    match dictGetE results "recon" with
    | Except.ok recon =>
        Except.ok ((F.mse_loss recon inputs).div (inputs.size0 : ℚ))
    | Except.error e => Except.error e
  else if m.recon_loss = "bce" then
    match dictGetE results "recon" with
    | Except.ok recon =>
        Except.ok ((F.binary_cross_entropy_with_logits m.bce_elem recon
          inputs).div (inputs.size0 : ℚ))
    | Except.error e => Except.error e
  else
    Except.error (PyErr.unboundLocalError "recon_loss")

/-- `compute_loss`: the loss dict `{'loss': recon_loss, 'recon_loss': recon_loss}`. -/
def compute_loss (m : AutoEncoder) (inputs : Tensor)
    (results : List (String × Tensor)) :
    Except PyErr (List (String × Tensor)) :=
  match m.compute_recontruct_loss inputs results with
  | Except.ok recon_loss =>
      Except.ok [("loss", recon_loss), ("recon_loss", recon_loss)]
  | Except.error e => Except.error e

/-- `step`: forward pass, loss computation, building the stage-prefixed log of
detached values, conditionally sampling images, and returning
`(loss_dict['loss'], log)` together with the effects performed. -/
def step (m : AutoEncoder) (batch : Tensor × Tensor) (batch_idx : Nat)
    (stage : String) :
    Except PyErr ((Tensor × List (String × Tensor)) × List Effect) :=
  let x := batch.1
  let results := m.forward x
  match m.compute_loss x results with
  | Except.error e => Except.error e
  | Except.ok loss_dict =>
    let log := loss_dict.map (fun kv => (stage ++ "_" ++ kv.1, kv.2.detach))
    let effs : List Effect :=
      if batch_idx = 0 ∧ m.logger = true ∧ stage ≠ "test" then
        [Effect.sampleImages batch stage]
      else []
    match dictGetE loss_dict "loss" with
    | Except.ok l => Except.ok ((l, log), effs)
    | Except.error e => Except.error e

/-- `training_step`: run `step` at its default stage `train`, log the dict
with the progress bar, and return the loss. -/
def training_step (m : AutoEncoder) (batch : Tensor × Tensor)
    (batch_idx : Nat) (optimizer_idx : Nat) :
    Except PyErr (Tensor × List Effect) :=
  match m.step batch batch_idx "train" with
  | Except.error e => Except.error e
  | Except.ok ((loss, logs), effs) =>
      Except.ok (loss, effs ++ [Effect.logDict logs true none none])

/-- `validation_step`: run `step` at stage `val`, log the dict per-epoch, and
return the loss. -/
def validation_step (m : AutoEncoder) (batch : Tensor × Tensor)
    (batch_idx : Nat) : Except PyErr (Tensor × List Effect) :=
  match m.step batch batch_idx "val" with
  | Except.error e => Except.error e
  | Except.ok ((loss, logs), effs) =>
      Except.ok (loss, effs ++ [Effect.logDict logs true (some false) (some true)])

/-- `test_step`: run `step` at stage `test` and return the log dict. -/
def test_step (m : AutoEncoder) (batch : Tensor × Tensor) (batch_idx : Nat) :
    Except PyErr (List (String × Tensor) × List Effect) :=
  match m.step batch batch_idx "test" with
  | Except.error e => Except.error e
  | Except.ok ((_, logs), effs) => Except.ok (logs, effs)

/-- `configure_optimizers`: build the optimizer with `init_optimizer` from the
stored hyperparameters and return it under the single key `optimizer`.
`init_optimizer` (from `models/optimizer.py`) and `self.parameters()` (from
the Lightning framework) are external, so they appear as parameters. -/
def configure_optimizers {O P : Type}
    (init_optimizer : String → P → ℚ → ℚ → O) (m : AutoEncoder)
    (params : P) : List (String × O) :=
  [("optimizer", init_optimizer m.optim params m.lr m.weight_decay)]

/-- `get_rep_size`: the representation size for each `embed` mode; raises
`ValueError` on an unrecognised mode. -/
def get_rep_size (m : AutoEncoder) (mode : String) : Except PyErr Nat :=
  if mode = "latent" then Except.ok m.latent_size
  else if mode = "pre" then Except.ok m.encoder_conv_output_size
  else if mode = "post" then Except.ok m.decoder_latent_output_size
  else Except.error PyErr.valueError

end AutoEncoder

/-- The model classes imported by `src/models/__init__.py`.  `AutoEncoder` is
the class of `ae.py`; the other four are defined in sibling files that only
appear through these imports, so they are represented as abstract class tags. -/
inductive ModelClass where
  | VAE
  | DiscreteVAE
  | RecurrentDiscreteVAE
  | BetaTCVAE
  | AutoEncoder
deriving DecidableEq, Repr

/-- The `vae_models` registry of `src/models/__init__.py`. -/
def vae_models : List (String × ModelClass) :=
  [("VAE", ModelClass.VAE),
   ("DiscreteVAE", ModelClass.DiscreteVAE),
   ("RecurrentDiscreteVAE", ModelClass.RecurrentDiscreteVAE),
   ("BetaTCVAE", ModelClass.BetaTCVAE),
   ("AE", ModelClass.AutoEncoder)]

/-- A concrete model instance used by the witness theorems: identity networks,
`mse` reconstruction loss, a logger attached. -/
def mdl : AutoEncoder :=
  { input_size := [1, 2, 2]
    architecture := "base"
    latent_size := 3
    recon_loss := "mse"
    lr := 1 / 1000
    optim := "adam"
    weight_decay := 0
    encoder_conv := id
    decoder_conv := id
    encoder_latent := id
    decoder_latent := id
    encoder_conv_output_size := 4
    decoder_latent_output_size := 5
    logger := true
    bce_elem := fun x y => x * y }

/-- A concrete input batch of one sample for the witness theorems. -/
def xIn : Tensor := ⟨[[1, 2]], false⟩

/-- Concrete labels for the witness theorems. -/
def yIn : Tensor := ⟨[[0]], false⟩

/-- The reconstruction loss the witness model produces on the witness batch
(identity networks reconstruct the input exactly). -/
def rl0 : Tensor := (F.mse_loss xIn xIn).div (xIn.size0 : ℚ)

/-- Helper: a successful `compute_loss` always yields the two-entry dict built
from the successful reconstruction loss. -/
theorem compute_loss_ok_shape (m : AutoEncoder) (inputs : Tensor)
    (results : List (String × Tensor)) (ld : List (String × Tensor))
    (h : m.compute_loss inputs results = Except.ok ld) :
    ∃ rl, m.compute_recontruct_loss inputs results = Except.ok rl ∧
      ld = [("loss", rl), ("recon_loss", rl)] := by
  unfold AutoEncoder.compute_loss at h
  cases hc : m.compute_recontruct_loss inputs results with
  | ok rl =>
    rw [hc] at h
    exact ⟨rl, rfl, (Except.ok.injEq _ _).mp h.symm⟩
  | error e =>
    rw [hc] at h
    exact absurd h (by simp)

/-- Helper: a successful reconstruction loss determines the whole of `step`,
including the conditional `sample_images` effect. -/
theorem step_ok_of_recon_ok (m : AutoEncoder) (batch : Tensor × Tensor)
    (batch_idx : Nat) (stage : String) (rl : Tensor)
    (hrc : m.compute_recontruct_loss batch.1 (m.forward batch.1) =
      Except.ok rl) :
    m.step batch batch_idx stage =
      Except.ok ((rl,
          [(stage ++ "_" ++ "loss", rl.detach),
           (stage ++ "_" ++ "recon_loss", rl.detach)]),
        if batch_idx = 0 ∧ m.logger = true ∧ stage ≠ "test" then
          [Effect.sampleImages batch stage]
        else []) := by
  simp only [AutoEncoder.step, AutoEncoder.compute_loss]
  rw [hrc]
  rfl

/-- C1: `step` first runs the forward pass, then computes the loss on the
input and the forward results, and returns the pair of `loss_dict` at key
`loss` together with the log that maps each key `k` of `loss_dict` to its
detached value under the stage-prefixed key. -/
theorem step_forward_then_loss (m : AutoEncoder) (x y : Tensor)
    (batch_idx : Nat) (stage : String) (ld : List (String × Tensor))
    (h : m.compute_loss x (m.forward x) = Except.ok ld) :
    ∃ l effs, dictGet ld "loss" = some l ∧
      m.step (x, y) batch_idx stage =
        Except.ok
          ((l, ld.map (fun kv => (stage ++ "_" ++ kv.1, kv.2.detach))), effs) := by
  obtain ⟨rl, hrc, hld⟩ := compute_loss_ok_shape m x (m.forward x) ld h
  subst hld
  refine ⟨rl,
    if batch_idx = 0 ∧ m.logger = true ∧ stage ≠ "test" then
      [Effect.sampleImages (x, y) stage]
    else [], rfl, ?_⟩
  exact step_ok_of_recon_ok m (x, y) batch_idx stage rl hrc

/-- C1 witness: a concrete run of `step` on the one-sample batch. -/
theorem step_forward_then_loss_witness :
    ∃ l effs,
      dictGet [("loss", rl0), ("recon_loss", rl0)] "loss" = some l ∧
      mdl.step (xIn, yIn) 0 "train" =
        Except.ok
          ((l, ([("loss", rl0), ("recon_loss", rl0)]).map
            (fun kv => ("train" ++ "_" ++ kv.1, kv.2.detach))), effs) :=
  step_forward_then_loss mdl xIn yIn 0 "train"
    [("loss", rl0), ("recon_loss", rl0)] (by rfl)

/-- C2: `forward` returns a dict with the single key `recon`, whose value is
the composition of `decode` after `encode`, itself the chain of the four
network modules. -/
theorem forward_decode_after_encode (m : AutoEncoder) (x : Tensor) :
    (m.forward x).map Prod.fst = ["recon"] ∧
      dictGet (m.forward x) "recon" = some (m.decode (m.encode x)) ∧
      m.decode (m.encode x) =
        m.decoder_conv (m.decoder_latent (m.encoder_latent (m.encoder_conv x))) :=
  ⟨rfl, rfl, rfl⟩

/-- C3: the `vae_models` registry maps exactly the five names `VAE`,
`DiscreteVAE`, `RecurrentDiscreteVAE`, `BetaTCVAE` and `AE` to the
corresponding classes, and has no other entries. -/
theorem vae_models_registry_exact :
    vae_models.map Prod.fst =
        ["VAE", "DiscreteVAE", "RecurrentDiscreteVAE", "BetaTCVAE", "AE"] ∧
      dictGet vae_models "VAE" = some ModelClass.VAE ∧
      dictGet vae_models "DiscreteVAE" = some ModelClass.DiscreteVAE ∧
      dictGet vae_models "RecurrentDiscreteVAE" =
        some ModelClass.RecurrentDiscreteVAE ∧
      dictGet vae_models "BetaTCVAE" = some ModelClass.BetaTCVAE ∧
      dictGet vae_models "AE" = some ModelClass.AutoEncoder ∧
      vae_models.length = 5 := by
  decide

/-- C4: for a nonempty batch with a matching reconstruction in the results
dict, `compute_recontruct_loss` returns the sum-reduced elementwise loss
divided by the batch size: summed squared error over the batch mean for
`mse`, and the summed elementwise binary cross-entropy with logits over the
batch mean for `bce`. -/
theorem compute_recontruct_loss_batch_mean (m : AutoEncoder) (inputs : Tensor)
    (results : List (String × Tensor)) (recon : Tensor)
    (h : dictGet results "recon" = some recon) (hN : 0 < inputs.size0) :
    (m.recon_loss = "mse" →
      m.compute_recontruct_loss inputs results =
        Except.ok
          ⟨[[batchSum (fun r i => (r - i) ^ 2) recon.data inputs.data /
              (inputs.size0 : ℚ)]],
           recon.requiresGrad || inputs.requiresGrad⟩) ∧
    (m.recon_loss = "bce" →
      m.compute_recontruct_loss inputs results =
        Except.ok
          ⟨[[batchSum m.bce_elem recon.data inputs.data / (inputs.size0 : ℚ)]],
           recon.requiresGrad || inputs.requiresGrad⟩) := by
  constructor
  · intro hm
    unfold AutoEncoder.compute_recontruct_loss
    rw [if_pos hm]
    unfold dictGetE
    rw [h]
    simp [F.mse_loss, Tensor.div]
  · intro hm
    unfold AutoEncoder.compute_recontruct_loss
    rw [hm]
    rw [if_neg (by decide), if_pos rfl]
    unfold dictGetE
    rw [h]
    simp [F.binary_cross_entropy_with_logits, Tensor.div]

/-- C4 witness: the `mse` and `bce` guarantees at the concrete witness model
and batch, with the `recon` entry present and a batch of size one. -/
theorem compute_recontruct_loss_batch_mean_witness :
    (mdl.recon_loss = "mse" →
      mdl.compute_recontruct_loss xIn [("recon", xIn)] =
        Except.ok
          ⟨[[batchSum (fun r i => (r - i) ^ 2) xIn.data xIn.data /
              (xIn.size0 : ℚ)]],
           xIn.requiresGrad || xIn.requiresGrad⟩) ∧
    (mdl.recon_loss = "bce" →
      mdl.compute_recontruct_loss xIn [("recon", xIn)] =
        Except.ok
          ⟨[[batchSum mdl.bce_elem xIn.data xIn.data / (xIn.size0 : ℚ)]],
           xIn.requiresGrad || xIn.requiresGrad⟩) :=
  compute_recontruct_loss_batch_mean mdl xIn [("recon", xIn)] xIn (by rfl)
    (by decide)

/-- C5: `training_step` runs `step` at stage `train`, logs with the progress
bar, and returns the loss; `validation_step` runs `step` at stage `val`, logs
per-epoch, and returns the loss; `test_step` runs `step` at stage `test` and
returns the log dict rather than the loss. -/
theorem lifecycle_entry_points (m : AutoEncoder) (batch : Tensor × Tensor)
    (batch_idx : Nat) (optimizer_idx : Nat) :
    (∀ l log effs,
      m.step batch batch_idx "train" = Except.ok ((l, log), effs) →
        m.training_step batch batch_idx optimizer_idx =
          Except.ok (l, effs ++ [Effect.logDict log true none none])) ∧
    (∀ l log effs,
      m.step batch batch_idx "val" = Except.ok ((l, log), effs) →
        m.validation_step batch batch_idx =
          Except.ok (l, effs ++ [Effect.logDict log true (some false) (some true)])) ∧
    (∀ l log effs,
      m.step batch batch_idx "test" = Except.ok ((l, log), effs) →
        m.test_step batch batch_idx = Except.ok (log, effs)) := by
  refine ⟨?_, ?_, ?_⟩ <;> intro l log effs h
  · unfold AutoEncoder.training_step
    rw [h]
  · unfold AutoEncoder.validation_step
    rw [h]
  · unfold AutoEncoder.test_step
    rw [h]

/-- C5 witness: the three lifecycle entry points on a concrete batch at a
batch index where no image sampling happens. -/
theorem lifecycle_entry_points_witness :
    mdl.training_step (xIn, yIn) 1 0 =
      Except.ok (rl0,
        [Effect.logDict [("train_loss", rl0.detach), ("train_recon_loss", rl0.detach)]
          true none none]) ∧
    mdl.validation_step (xIn, yIn) 1 =
      Except.ok (rl0,
        [Effect.logDict [("val_loss", rl0.detach), ("val_recon_loss", rl0.detach)]
          true (some false) (some true)]) ∧
    mdl.test_step (xIn, yIn) 1 =
      Except.ok ([("test_loss", rl0.detach), ("test_recon_loss", rl0.detach)], []) :=
  ⟨(lifecycle_entry_points mdl (xIn, yIn) 1 0).1 rl0
      [("train_loss", rl0.detach), ("train_recon_loss", rl0.detach)] [] (by rfl),
   (lifecycle_entry_points mdl (xIn, yIn) 1 0).2.1 rl0
      [("val_loss", rl0.detach), ("val_recon_loss", rl0.detach)] [] (by rfl),
   (lifecycle_entry_points mdl (xIn, yIn) 1 0).2.2 rl0
      [("test_loss", rl0.detach), ("test_recon_loss", rl0.detach)] [] (by rfl)⟩

/-- C7: `configure_optimizers` returns a dict with the single key `optimizer`
whose value is built by `init_optimizer` from exactly the stored
hyperparameters: the optimizer name, the parameters, the learning rate and
the weight decay. -/
theorem configure_optimizers_single_optimizer_key {O P : Type}
    (init_optimizer : String → P → ℚ → ℚ → O) (m : AutoEncoder) (params : P) :
    (AutoEncoder.configure_optimizers init_optimizer m params).map Prod.fst =
        ["optimizer"] ∧
      dictGet (AutoEncoder.configure_optimizers init_optimizer m params)
          "optimizer" =
        some (init_optimizer m.optim params m.lr m.weight_decay) :=
  ⟨rfl, rfl⟩

/-- C6: whenever `step` returns, the `sample_images` effect was performed
exactly when the batch index is zero, a logger is attached, and the stage is
not `test`; in particular it never happens during testing or on a later
batch. -/
theorem sample_images_iff_first_batch_logger_not_test (m : AutoEncoder)
    (batch : Tensor × Tensor) (batch_idx : Nat) (stage : String)
    (r : Tensor × List (String × Tensor)) (effs : List Effect)
    (h : m.step batch batch_idx stage = Except.ok (r, effs)) :
    effs =
      if batch_idx = 0 ∧ m.logger = true ∧ stage ≠ "test" then
        [Effect.sampleImages batch stage]
      else [] := by
  cases hrc : m.compute_recontruct_loss batch.1 (m.forward batch.1) with
  | ok rl =>
    rw [step_ok_of_recon_ok m batch batch_idx stage rl hrc] at h
    simp only [Except.ok.injEq, Prod.mk.injEq] at h
    exact h.2.symm
  | error e =>
    have he : m.step batch batch_idx stage = Except.error e := by
      simp only [AutoEncoder.step, AutoEncoder.compute_loss]
      rw [hrc]
    rw [he] at h
    exact absurd h (by simp)

/-- C6 witness: with the concrete model (logger attached), batch index zero
and stage `train`, the image-sampling effect is exactly the one the condition
prescribes. -/
theorem sample_images_iff_witness :
    ([Effect.sampleImages (xIn, yIn) "train"] : List Effect) =
      if 0 = 0 ∧ mdl.logger = true ∧ "train" ≠ "test" then
        [Effect.sampleImages (xIn, yIn) "train"]
      else [] :=
  sample_images_iff_first_batch_logger_not_test mdl (xIn, yIn) 0 "train"
    (rl0, [("train_loss", rl0.detach), ("train_recon_loss", rl0.detach)])
    [Effect.sampleImages (xIn, yIn) "train"] (by rfl)

/-- C8: `compute_recontruct_loss` is partial in the `recon_loss`
hyperparameter: every value other than `mse` and `bce` reaches the return of
the never-assigned local and raises `UnboundLocalError`, and under the
precondition that `recon_loss` is `mse` or `bce` that error is unreachable. -/
theorem compute_recontruct_loss_partiality (m : AutoEncoder) (inputs : Tensor)
    (results : List (String × Tensor)) :
    (m.recon_loss ≠ "mse" → m.recon_loss ≠ "bce" →
      m.compute_recontruct_loss inputs results =
        Except.error (PyErr.unboundLocalError "recon_loss")) ∧
    ((m.recon_loss = "mse" ∨ m.recon_loss = "bce") →
      ∀ n, m.compute_recontruct_loss inputs results ≠
        Except.error (PyErr.unboundLocalError n)) := by
  constructor
  · intro h1 h2
    unfold AutoEncoder.compute_recontruct_loss
    rw [if_neg h1, if_neg h2]
  · intro hv n
    unfold AutoEncoder.compute_recontruct_loss
    rcases hv with h | h
    · rw [if_pos h]
      unfold dictGetE
      cases dictGet results "recon" with
      | some recon => simp
      | none => simp
    · rw [h]
      rw [if_neg (by decide), if_pos rfl]
      unfold dictGetE
      cases dictGet results "recon" with
      | some recon => simp
      | none => simp

/-- C8 witness: a model whose `recon_loss` is `l1` raises
`UnboundLocalError`, even with a well-formed results dict. -/
theorem compute_recontruct_loss_partiality_witness :
    ({ mdl with recon_loss := "l1" } : AutoEncoder).compute_recontruct_loss
        xIn [("recon", xIn)] =
      Except.error (PyErr.unboundLocalError "recon_loss") :=
  (compute_recontruct_loss_partiality { mdl with recon_loss := "l1" } xIn
    [("recon", xIn)]).1 (by decide) (by decide)

/-- C9: `embed` and `get_rep_size` raise `ValueError` exactly on modes other
than `pre`, `latent` and `post`; on the valid modes `embed` returns the
backbone feature, the latent code, or the latent decoding of the code, and
`get_rep_size` returns the matching representation size. -/
theorem embed_get_rep_size_modes (m : AutoEncoder) (x : Tensor)
    (mode : String) :
    (m.embed x mode = Except.error PyErr.valueError ↔
      (mode ≠ "pre" ∧ mode ≠ "latent" ∧ mode ≠ "post")) ∧
    (m.get_rep_size mode = Except.error PyErr.valueError ↔
      (mode ≠ "pre" ∧ mode ≠ "latent" ∧ mode ≠ "post")) ∧
    (mode = "pre" →
      m.embed x mode = Except.ok (m.encoder_conv x) ∧
        m.get_rep_size mode = Except.ok m.encoder_conv_output_size) ∧
    (mode = "latent" →
      m.embed x mode = Except.ok (m.encode x) ∧
        m.get_rep_size mode = Except.ok m.latent_size) ∧
    (mode = "post" →
      m.embed x mode = Except.ok (m.decoder_latent (m.encode x)) ∧
        m.get_rep_size mode = Except.ok m.decoder_latent_output_size) := by
  by_cases h1 : mode = "pre"
  · subst h1
    simp [AutoEncoder.embed, AutoEncoder.get_rep_size]
  by_cases h2 : mode = "latent"
  · subst h2
    simp [AutoEncoder.embed, AutoEncoder.get_rep_size]
  by_cases h3 : mode = "post"
  · subst h3
    simp [AutoEncoder.embed, AutoEncoder.get_rep_size]
  simp [AutoEncoder.embed, AutoEncoder.get_rep_size, h1, h2, h3]

/-- C9 witness: the `latent` mode on the concrete model returns the latent
code and the stored latent size. -/
theorem embed_get_rep_size_modes_witness :
    mdl.embed xIn "latent" = Except.ok (mdl.encode xIn) ∧
      mdl.get_rep_size "latent" = Except.ok mdl.latent_size :=
  (embed_get_rep_size_modes mdl xIn "latent").2.2.2.1 rfl

/-- C10: whenever `compute_loss` returns a dict, that dict has exactly the
keys `loss` and `recon_loss`, bound to the identical value: the training
objective is the reconstruction loss alone. -/
theorem compute_loss_exact_keys_same_value (m : AutoEncoder) (inputs : Tensor)
    (results : List (String × Tensor)) (ld : List (String × Tensor))
    (h : m.compute_loss inputs results = Except.ok ld) :
    ∃ rl, ld = [("loss", rl), ("recon_loss", rl)] := by
  obtain ⟨rl, _, hld⟩ := compute_loss_ok_shape m inputs results ld h
  exact ⟨rl, hld⟩

/-- C10 witness: the concrete loss dict of the witness model. -/
theorem compute_loss_exact_keys_same_value_witness :
    ∃ rl, ([("loss", rl0), ("recon_loss", rl0)] : List (String × Tensor)) =
      [("loss", rl), ("recon_loss", rl)] :=
  compute_loss_exact_keys_same_value mdl xIn (mdl.forward xIn)
    [("loss", rl0), ("recon_loss", rl0)] (by rfl)

end CompGen
